import Mathlib

/-!
# generate_cert: certificate templates, mode selection and file output

A shallow embedding of `generate_cert.go`.  The Go functions `newCertificate`,
`checkFilesExist`, `GenerateCA`, `GenerateCert` and `main` are transcribed as
Lean functions with explicit state passing.  Everything the program obtains
from the standard library or the operating system (the clock, the random
source, `net.ParseIP`, the RSA and X.509 routines, failures of file
operations) is a field of `Env`, so every theorem holds for all behaviours of
those collaborators.  The file system is a map from paths to files carrying a
permission mode and the PEM blocks written so far.  A ghost trace records the
calls that the properties talk about.
-/

namespace Gencert

/-! ## Values of the Go standard library -/

/-- Go `time.Duration`: a count of nanoseconds (an `int64` in Go). -/
abbrev Duration := Int

/-- Go `time.Time`, as an instant counted in nanoseconds on an unbounded axis. -/
structure Time where
  nsec : Int
deriving DecidableEq, Repr

def Nanosecond : Duration := 1
def Microsecond : Duration := 1000 * Nanosecond
def Millisecond : Duration := 1000 * Microsecond
def Second : Duration := 1000 * Millisecond
def Minute : Duration := 60 * Second
def Hour : Duration := 60 * Minute

/-- Largest value of Go `time.Duration` (`1<<63 - 1`). -/
def maxDuration : Duration := 2 ^ 63 - 1

/-- Smallest value of Go `time.Duration` (`-1 << 63`). -/
def minDuration : Duration := -(2 ^ 63)

/-- Go `t.Add(d)`. -/
def Time.Add (t : Time) (d : Duration) : Time := ⟨t.nsec + d⟩

/-- Go `t.Sub(u)`: the difference, saturated to the range of `Duration`. -/
def Time.Sub (t u : Time) : Duration :=
  let d := t.nsec - u.nsec
  if d > maxDuration then maxDuration else if d < minDuration then minDuration else d

/-- Source constant `RSABITS`. -/
def RSABITS : Nat := 2048

/-- Source constant `VALIDFOR = 1080 * 24 * time.Hour`. -/
def VALIDFOR : Duration := 1080 * 24 * Hour

/-- Go `x509.KeyUsage` bits (`1 << iota`). -/
def KeyUsageDigitalSignature : Nat := 1
def KeyUsageContentCommitment : Nat := 2
def KeyUsageKeyEncipherment : Nat := 4
def KeyUsageDataEncipherment : Nat := 8
def KeyUsageKeyAgreement : Nat := 16
def KeyUsageCertSign : Nat := 32
def KeyUsageCRLSign : Nat := 64
def KeyUsageEncipherOnly : Nat := 128
def KeyUsageDecipherOnly : Nat := 256

/-- Go `x509.ExtKeyUsage`. -/
inductive ExtKeyUsage where
  | ExtKeyUsageAny
  | ExtKeyUsageServerAuth
  | ExtKeyUsageClientAuth
  | ExtKeyUsageCodeSigning
  | ExtKeyUsageEmailProtection
deriving DecidableEq, Repr

/-- Go `net.IP`: the bytes of an address. -/
abbrev IP := List Nat

/-- DER bytes. -/
abbrev DER := List Nat

/-- Go `error` values: the message, and whether `os.IsNotExist` holds of it. -/
structure Error where
  msg : String
  notExist : Bool := false
deriving DecidableEq, Repr

/-- The fields of Go `x509.Certificate` that the program touches. -/
structure Certificate where
  SerialNumber : Nat
  Organization : List String
  NotBefore : Time
  NotAfter : Time
  KeyUsage : Nat
  ExtKeyUsage : List ExtKeyUsage := []
  BasicConstraintsValid : Bool := false
  IsCA : Bool := false
  IPAddresses : List IP := []
  DNSNames : List String := []
deriving DecidableEq, Repr

/-- An RSA public key, kept abstract. -/
structure PublicKey where
  id : Nat
deriving DecidableEq, Repr

/-- An RSA private key with its public half, kept abstract. -/
structure PrivateKey where
  secret : Nat
  PublicKey : PublicKey
deriving DecidableEq, Repr

/-- Go `tls.Certificate`: the DER chain and the private key. -/
structure TLSCertificate where
  Certificate : List DER
  PrivateKey : PrivateKey
deriving DecidableEq, Repr

/-- Go `pem.Block`. -/
structure Block where
  type : String
  bytes : DER
deriving DecidableEq, Repr

/-! ## The world the program runs in -/

/-- A regular file: permission bits and the PEM blocks it holds. -/
structure File where
  mode : Nat
  data : List Block
deriving DecidableEq, Repr

/-- The file system: which paths hold a file. -/
abbrev FS := String → Option File

/-- The two output files of an issuer. -/
inductive Output where
  | cert
  | key
deriving DecidableEq, Repr

/-- Ghost events: the calls that the properties observe. -/
inductive Event where
  | log (msg : String)
  | callGenerateCA (certFile keyFile : String)
  | callGenerateCert (hosts : List String) (certFile keyFile caFile caKeyFile : String)
  | generateKey (bits : Nat)
  | createCertificate (template parent : Certificate)
deriving DecidableEq, Repr

/-- State threaded through the program: the files and the ghost trace. -/
structure World where
  fs : FS
  trace : List Event := []

/-- Everything supplied by the standard library and the operating system. -/
structure Env where
  /-- Result of `time.Now()`. -/
  now : Time
  /-- Result of `rand.Int(rand.Reader, max)`. -/
  randInt : Nat → Except Error Nat
  /-- Go `net.ParseIP`; `none` is Go `nil`. -/
  parseIP : String → Option IP
  /-- Result of `rsa.GenerateKey(rand.Reader, bits)`. -/
  generateKey : Nat → Except Error PrivateKey
  /-- Go `x509.CreateCertificate(rand.Reader, template, parent, pub, priv)`. -/
  createCertificate : Certificate → Certificate → PublicKey → PrivateKey → Except Error DER
  /-- Go `x509.MarshalPKCS1PrivateKey`. -/
  marshalPKCS1PrivateKey : PrivateKey → DER
  /-- Go `tls.LoadX509KeyPair(certFile, keyFile)`. -/
  loadX509KeyPair : String → String → Except Error TLSCertificate
  /-- Go `x509.ParseCertificate`. -/
  parseCertificate : DER → Except Error Certificate
  /-- Go `fmt.Sprintf("%q", s)`. -/
  quote : String → String
  /-- The process file-mode creation mask. -/
  umask : Nat
  /-- The message of an error of `os.Stat` other than the file being absent, per path. -/
  statErr : String → Option String
  /-- Failure of opening an output file for writing. -/
  openErr : Output → Option Error
  /-- Failure of `pem.Encode` on an output file. -/
  encodeErr : Output → Option Error
  /-- Failure of `Close` on an output file. -/
  closeErr : Output → Option Error

/-- How a Go function call ends. -/
inductive Outcome (α : Type) where
  /-- Normal return. -/
  | done (a : α)
  /-- Go `log.Fatalf`: the message is logged and the process exits with status 1. -/
  | fatal (msg : String)
  /-- A run-time panic. -/
  | panic (msg : String)
deriving DecidableEq, Repr

/-- Append a ghost event. -/
def World.emit (w : World) (e : Event) : World := { w with trace := w.trace ++ [e] }

/-- Go `a &^ b` (AND NOT). -/
def andNot (a b : Nat) : Nat := a ^^^ (a &&& b)

/-- File system after a successful open with `O_CREATE|O_TRUNC` and mode `perm`, as
documented for `os.OpenFile` ("if the file does not exist, and the `O_CREATE` flag is
passed, it is created with mode perm (before umask)"): an existing file is truncated
and keeps its mode, a new file gets `perm &^ umask`. -/
def FS.openTrunc (fs : FS) (umask : Nat) (name : String) (perm : Nat) : FS :=
  fun p =>
    if p = name then
      match fs name with
      | some f => some { f with data := [] }
      | none => some { mode := andNot perm umask, data := [] }
    else fs p

/-- File system after a block has been written to the open file `name`. -/
def FS.append (fs : FS) (name : String) (b : Block) : FS :=
  fun p =>
    if p = name then
      match fs name with
      | some f => some { f with data := f.data ++ [b] }
      | none => none
    else fs p

/-- Go `os.OpenFile(name, os.O_WRONLY|os.O_CREATE|os.O_TRUNC, perm)` for output `o`. -/
def OpenFile (env : Env) (o : Output) (w : World) (name : String) (perm : Nat) :
    Except Error World :=
  match env.openErr o with
  | some err => .error err
  | none => .ok { w with fs := w.fs.openTrunc env.umask name perm }

/-- Go `os.Create(name)`, which is `OpenFile(name, O_RDWR|O_CREATE|O_TRUNC, 0666)`. -/
def Create (env : Env) (o : Output) (w : World) (name : String) : Except Error World :=
  OpenFile env o w name 0o666

/-- Go `pem.Encode(out, b)` on the open output `o` at path `name`. -/
def pemEncode (env : Env) (o : Output) (w : World) (name : String) (b : Block) :
    Option Error × World :=
  match env.encodeErr o with
  | some err => (some err, w)
  | none => (none, { w with fs := w.fs.append name b })

/-- Go `out.Close()` on the open output `o`. -/
def Close (env : Env) (o : Output) (w : World) : Option Error × World :=
  (env.closeErr o, w)

/-- Go `os.Stat(name)`, keeping only the error. -/
def Stat (env : Env) (fs : FS) (name : String) : Option Error :=
  match env.statErr name with
  | some m => some { msg := m }
  | none =>
    match fs name with
    | some _ => none
    | none => some { msg := "stat " ++ name ++ ": no such file or directory", notExist := true }

/-- Go `os.IsNotExist(err)`. -/
def IsNotExist (err : Option Error) : Bool :=
  match err with
  | none => false
  | some e => e.notExist

/-- Pieces of a character list between occurrences of `sep`. -/
def splitChars (sep : Char) : List Char → List (List Char)
  | [] => [[]]
  | c :: cs =>
    if c = sep then [] :: splitChars sep cs
    else
      match splitChars sep cs with
      | p :: ps => (c :: p) :: ps
      | [] => [[c]]

/-- Go `strings.Split(s, ",")`.  Go strings are byte strings; the comma is a single byte
that never occurs inside a longer UTF-8 sequence, so cutting the characters at commas
gives the same pieces. -/
def SplitComma (s : String) : List String :=
  (splitChars ',' s.data).map String.mk

/-- Go `strings.Join(a, sep)`. -/
def Join (a : List String) (sep : String) : String := sep.intercalate a

/-! ## The program -/

/-- The command-line flags after `flag.Parse()`. -/
structure Flags where
  host : String := ""
  certFile : String := ""
  keyFile : String := ""
  ca : String := ""
  caKey : String := ""
  overwrite : Bool := false
  org : String := "Boot2Docker"
deriving DecidableEq, Repr

/-- The local `serialNumberLimit` of source `newCertificate`: `1 << 128`. -/
def serialNumberLimit : Nat := 1 <<< 128

/-- Source `newCertificate`: creates a new template. -/
def newCertificate (env : Env) (org : String) : Outcome Certificate :=
  let notBefore := env.now
  let notAfter := notBefore.Add (Hour * 24 * 1080)
  match env.randInt serialNumberLimit with
  | .error err => .fatal ("failed to generate serial number: " ++ err.msg)
  | .ok serialNumber =>
    .done {
      SerialNumber := serialNumber
      Organization := [org]
      NotBefore := notBefore
      NotAfter := notAfter
      KeyUsage := KeyUsageKeyEncipherment ||| KeyUsageDigitalSignature
      BasicConstraintsValid := true }

/-- Loop of source `checkFilesExist`: the quoted names of the files that exist,
or the first other error of `os.Stat`. -/
def checkFilesExist.loop (env : Env) (fs : FS) :
    List String → List String → Except Error (List String)
  | [], existingFiles => .ok existingFiles
  | file :: rest, existingFiles =>
    let err := Stat env fs file
    if !IsNotExist err then
      match err with
      | some e => .error e
      | none => checkFilesExist.loop env fs rest (existingFiles ++ [env.quote file])
    else checkFilesExist.loop env fs rest existingFiles

/-- Source `checkFilesExist`. -/
def checkFilesExist (env : Env) (fs : FS) (files : List String) : Option Error :=
  match checkFilesExist.loop env fs files [] with
  | .error e => some e
  | .ok existingFiles =>
    if existingFiles.length > 0 then
      some { msg := "the following files already exist: " ++ Join existingFiles " "
                      ++ ". To overwrite files, add `--overwrite`." }
    else none

/-- Lines 141-155 and 200-214 of the source, shared by both issuers: write the
certificate and the key as PEM files. -/
def writeOutputs (env : Env) (w : World) (certFile keyFile : String) (derBytes : DER)
    (priv : PrivateKey) : Outcome (Option Error) × World :=
  match Create env .cert w certFile with
  | .error err => (.done (some err), w)
  | .ok w =>
    let w := (pemEncode env .cert w certFile { type := "CERTIFICATE", bytes := derBytes }).2
    let w := (Close env .cert w).2
    match OpenFile env .key w keyFile 0o600 with
    | .error err => (.done (some err), w)
    | .ok w =>
      let w := (pemEncode env .key w keyFile
        { type := "RSA PRIVATE KEY", bytes := env.marshalPKCS1PrivateKey priv }).2
      let w := (Close env .key w).2
      (.done none, w)

/-- Lines 128-129 of source `GenerateCA`: the changes made to the fresh template. -/
def caTemplate (template : Certificate) : Certificate :=
  let template := { template with IsCA := true }
  { template with KeyUsage := template.KeyUsage ||| KeyUsageCertSign }

/-- Source `GenerateCA`. -/
def GenerateCA (env : Env) (org : String) (w : World) (certFile keyFile : String) :
    Outcome (Option Error) × World :=
  let w := w.emit (.callGenerateCA certFile keyFile)
  let w := w.emit (.log "Generating a new certificate authority.")
  match newCertificate env org with
  | .fatal m => (.fatal m, w)
  | .panic m => (.panic m, w)
  | .done template =>
    let template := caTemplate template
    let w := w.emit (.generateKey RSABITS)
    match env.generateKey RSABITS with
    | .error err => (.done (some err), w)
    | .ok priv =>
      let w := w.emit (.createCertificate template template)
      match env.createCertificate template template priv.PublicKey priv with
      | .error err => (.done (some err), w)
      | .ok derBytes => writeOutputs env w certFile keyFile derBytes priv

/-- Loop body of lines 171-177 of source `GenerateCert`. -/
def addHost (parseIP : String → Option IP) (template : Certificate) (h : String) :
    Certificate :=
  match parseIP h with
  | some ip => { template with IPAddresses := template.IPAddresses ++ [ip] }
  | none => { template with DNSNames := template.DNSNames ++ [h] }

/-- The test `len(hosts) == 1 && hosts[0] == ""` of source `GenerateCert`. -/
def isClientRequest (hosts : List String) : Bool :=
  hosts.length == 1 && hosts.head? == some ""

/-- Lines 164-178 of source `GenerateCert`: the branch on `hosts`, giving the
line that is logged and the template after the branch. -/
def leafTemplate (parseIP : String → Option IP) (template : Certificate)
    (hosts : List String) : String × Certificate :=
  if isClientRequest hosts then
    let template := { template with ExtKeyUsage := [ExtKeyUsage.ExtKeyUsageClientAuth] }
    ("no --host parameters, making a client cert",
      { template with KeyUsage := KeyUsageDigitalSignature })
  else
    ("Generating a server cert", hosts.foldl (addHost parseIP) template)

/-- Source `GenerateCert`. -/
def GenerateCert (env : Env) (org : String) (w : World) (hosts : List String)
    (certFile keyFile caFile caKeyFile : String) : Outcome (Option Error) × World :=
  let w := w.emit (.callGenerateCert hosts certFile keyFile caFile caKeyFile)
  match newCertificate env org with
  | .fatal m => (.fatal m, w)
  | .panic m => (.panic m, w)
  | .done template =>
    let (line, template) := leafTemplate env.parseIP template hosts
    let w := w.emit (.log line)
    match env.loadX509KeyPair caFile caKeyFile with
    | .error err => (.done (some err), w)
    | .ok tlsCert =>
      let w := w.emit (.generateKey RSABITS)
      match env.generateKey RSABITS with
      | .error err => (.done (some err), w)
      | .ok priv =>
        match tlsCert.Certificate with
        | [] => (.panic "index out of range", w)
        | der0 :: _ =>
          match env.parseCertificate der0 with
          | .error err => (.done (some err), w)
          | .ok x509Cert =>
            let w := w.emit (.createCertificate template x509Cert)
            match env.createCertificate template x509Cert priv.PublicKey tlsCert.PrivateKey with
            | .error err => (.done (some err), w)
            | .ok derBytes => writeOutputs env w certFile keyFile derBytes priv

/-- The guard `if !*overwrite { checkFilesExist(...) }` of source `main`. -/
def overwriteGuard (env : Env) (flags : Flags) (w : World) : Option Error :=
  if !flags.overwrite then checkFilesExist env w.fs [flags.certFile, flags.keyFile] else none

/-- Turn the result of an issuer into the end of `main`. -/
def finish (what : String) (r : Outcome (Option Error) × World) : Outcome Unit × World :=
  match r with
  | (.done (some err), w) => (.fatal (what ++ err.msg), w)
  | (.done none, w) => (.done (), w)
  | (.fatal m, w) => (.fatal m, w)
  | (.panic m, w) => (.panic m, w)

/-- Source `main`, after `flag.Parse()`. -/
def main (env : Env) (flags : Flags) (w : World) : Outcome Unit × World :=
  if flags.certFile = "" then (.fatal "Missing required parameter: --cert", w)
  else if flags.keyFile = "" then (.fatal "Missing required parameter: --key", w)
  else if flags.ca = "" then
    if flags.caKey ≠ "" then (.fatal "Must provide both --ca and --ca-key", w)
    else
      match overwriteGuard env flags w with
      | some err => (.fatal ("Preventing overwrite: " ++ err.msg), w)
      | none =>
        finish "Failure to generate CA: "
          (GenerateCA env flags.org w flags.certFile flags.keyFile)
  else
    match overwriteGuard env flags w with
    | some err => (.fatal ("Preventing overwrite: " ++ err.msg), w)
    | none =>
      finish "Failure to generate cert: "
        (GenerateCert env flags.org w (SplitComma flags.host) flags.certFile flags.keyFile
          flags.ca flags.caKey)

/-! ## Concrete inputs -/

/-- An environment in which every collaborator succeeds; `10.0.0.1` is the one
string accepted as an IP address. -/
def sampleEnv : Env where
  now := ⟨1400000000000000000⟩
  randInt := fun _ => .ok 42
  parseIP := fun s =>
    if s = "10.0.0.1" then some [0, 0, 0, 0, 0, 0, 0, 0, 0, 0, 255, 255, 10, 0, 0, 1] else none
  generateKey := fun _ => .ok { secret := 7, PublicKey := ⟨7⟩ }
  createCertificate := fun _ _ _ _ => .ok [48, 130]
  marshalPKCS1PrivateKey := fun _ => [48, 129]
  loadX509KeyPair := fun _ _ =>
    .ok { Certificate := [[48, 130]], PrivateKey := { secret := 1, PublicKey := ⟨1⟩ } }
  parseCertificate := fun _ =>
    .ok { SerialNumber := 1, Organization := ["Boot2Docker"], NotBefore := ⟨0⟩,
          NotAfter := ⟨1⟩, KeyUsage := 37, BasicConstraintsValid := true, IsCA := true }
  quote := fun s => "\"" ++ s ++ "\""
  umask := 0o022
  statErr := fun _ => none
  openErr := fun _ => none
  encodeErr := fun _ => none
  closeErr := fun _ => none

/-- The template that `newCertificate` returns in `sampleEnv`. -/
def sampleBase : Certificate :=
  { SerialNumber := 42, Organization := ["Boot2Docker"], NotBefore := ⟨1400000000000000000⟩,
    NotAfter := ⟨1493312000000000000⟩, KeyUsage := 5, BasicConstraintsValid := true }

/-- The CA certificate that `sampleEnv.parseCertificate` returns. -/
def sampleParent : Certificate :=
  { SerialNumber := 1, Organization := ["Boot2Docker"], NotBefore := ⟨0⟩,
    NotAfter := ⟨1⟩, KeyUsage := 37, BasicConstraintsValid := true, IsCA := true }

/-- A file system with no files. -/
def emptyFS : FS := fun _ => none

/-- A file system in which `cert.pem` exists. -/
def certOnlyFS : FS := fun p =>
  if p = "cert.pem" then some { mode := 0o644, data := [⟨"CERTIFICATE", [48]⟩] } else none

/-- A file system in which `key.pem` exists and is readable by group and others. -/
def looseKeyFS : FS := fun p =>
  if p = "key.pem" then some { mode := 0o644, data := [⟨"RSA PRIVATE KEY", [48]⟩] } else none

/-- As `sampleEnv`, but `os.Stat` fails on `secret/key.pem` with a permission error. -/
def deniedStatEnv : Env :=
  { sampleEnv with
    statErr := fun p =>
      if p = "secret/key.pem" then some "stat secret/key.pem: permission denied" else none }

/-- As `sampleEnv`, but every `pem.Encode` and every `Close` fails. -/
def diskFullEnv : Env :=
  { sampleEnv with
    encodeErr := fun _ => some { msg := "write: no space left on device" }
    closeErr := fun _ => some { msg := "close: input/output error" } }

/-! ## Auxiliary facts -/

theorem validity_constant : Hour * 24 * 1080 = VALIDFOR ∧ VALIDFOR = 93312000000000000 := by
  decide

theorem validity_in_range : minDuration ≤ VALIDFOR ∧ VALIDFOR ≤ maxDuration := by
  decide

theorem newCertificate_done (env : Env) (org : String) (base : Certificate)
    (h : newCertificate env org = .done base) :
    ∃ serial, env.randInt serialNumberLimit = .ok serial ∧
      base = { SerialNumber := serial, Organization := [org], NotBefore := env.now,
               NotAfter := env.now.Add (Hour * 24 * 1080),
               KeyUsage := KeyUsageKeyEncipherment ||| KeyUsageDigitalSignature,
               BasicConstraintsValid := true } := by
  unfold newCertificate at h
  cases hr : env.randInt serialNumberLimit with
  | error e => simp [hr] at h
  | ok serial =>
    refine ⟨serial, rfl, ?_⟩
    simp [hr] at h
    exact h.symm

theorem newCertificate_of_rand (env : Env) (org : String) (serial : Nat)
    (h : env.randInt serialNumberLimit = .ok serial) :
    newCertificate env org =
      .done { SerialNumber := serial, Organization := [org], NotBefore := env.now,
              NotAfter := env.now.Add (Hour * 24 * 1080),
              KeyUsage := KeyUsageKeyEncipherment ||| KeyUsageDigitalSignature,
              BasicConstraintsValid := true } := by
  unfold newCertificate
  simp [h]

theorem writeOutputs_trace (env : Env) (w : World) (certFile keyFile : String) (der : DER)
    (priv : PrivateKey) : (writeOutputs env w certFile keyFile der priv).2.trace = w.trace := by
  unfold writeOutputs Create OpenFile pemEncode Close
  cases env.openErr .cert <;> cases env.openErr .key <;> cases env.encodeErr .cert <;>
    cases env.encodeErr .key <;> rfl

theorem GenerateCA_signed (env : Env) (org : String) (fs : FS) (certFile keyFile : String)
    (base t parent : Certificate) (hbase : newCertificate env org = .done base)
    (h : Event.createCertificate t parent ∈
      (GenerateCA env org { fs := fs } certFile keyFile).2.trace) :
    t = caTemplate base ∧ parent = caTemplate base := by
  unfold GenerateCA at h
  simp only [hbase] at h
  cases hk : env.generateKey RSABITS with
  | error e => simp [hk, World.emit] at h
  | ok priv =>
    simp only [hk] at h
    cases hc : env.createCertificate (caTemplate base) (caTemplate base) priv.PublicKey priv with
    | error e => simpa [hc, World.emit] using h
    | ok der =>
      simp only [hc, writeOutputs_trace] at h
      simpa [World.emit] using h

theorem GenerateCA_signs (env : Env) (org : String) (fs : FS) (certFile keyFile : String)
    (base : Certificate) (priv : PrivateKey) (hbase : newCertificate env org = .done base)
    (hkey : env.generateKey RSABITS = .ok priv) :
    Event.createCertificate (caTemplate base) (caTemplate base) ∈
      (GenerateCA env org { fs := fs } certFile keyFile).2.trace := by
  unfold GenerateCA
  simp only [hbase, hkey]
  cases hc : env.createCertificate (caTemplate base) (caTemplate base) priv.PublicKey priv with
  | error e => simp [World.emit]
  | ok der => simp [writeOutputs_trace, World.emit]

theorem GenerateCert_signed (env : Env) (org : String) (fs : FS) (hosts : List String)
    (certFile keyFile caFile caKeyFile : String) (base t parent : Certificate)
    (hbase : newCertificate env org = .done base)
    (h : Event.createCertificate t parent ∈
      (GenerateCert env org { fs := fs } hosts certFile keyFile caFile caKeyFile).2.trace) :
    t = (leafTemplate env.parseIP base hosts).2 := by
  unfold GenerateCert at h
  simp only [hbase] at h
  cases hl : env.loadX509KeyPair caFile caKeyFile with
  | error e => simp [hl, World.emit] at h
  | ok tlsCert =>
    simp only [hl] at h
    cases hk : env.generateKey RSABITS with
    | error e => simp [hk, World.emit] at h
    | ok priv =>
      simp only [hk] at h
      cases hd : tlsCert.Certificate with
      | nil => simp [hd, World.emit] at h
      | cons der0 rest =>
        simp only [hd] at h
        cases hp : env.parseCertificate der0 with
        | error e => simp [hp, World.emit] at h
        | ok x509Cert =>
          simp only [hp] at h
          cases hc : env.createCertificate (leafTemplate env.parseIP base hosts).2 x509Cert
              priv.PublicKey tlsCert.PrivateKey with
          | error e =>
            simp only [hc] at h
            simp [World.emit] at h
            exact h.1
          | ok der =>
            simp only [hc, writeOutputs_trace] at h
            simp [World.emit] at h
            exact h.1

theorem foldl_addHost (p : String → Option IP) (hosts : List String) (t : Certificate) :
    hosts.foldl (addHost p) t =
      { t with IPAddresses := t.IPAddresses ++ hosts.filterMap p,
               DNSNames := t.DNSNames ++ hosts.filter (fun h => (p h).isNone) } := by
  induction hosts generalizing t with
  | nil => simp
  | cons h rest ih =>
    rw [List.foldl_cons, ih]
    unfold addHost
    cases hp : p h with
    | none => simp [hp, List.filterMap_cons]
    | some ip => simp [hp, List.filterMap_cons]

theorem isClientRequest_iff (hosts : List String) : isClientRequest hosts = true ↔ hosts = [""] := by
  unfold isClientRequest
  match hosts with
  | [] => simp
  | [h] => simp
  | _ :: _ :: _ => simp

theorem leafTemplate_server (p : String → Option IP) (t : Certificate) (hosts : List String)
    (h : hosts ≠ [""]) :
    leafTemplate p t hosts =
      ("Generating a server cert",
        { t with IPAddresses := t.IPAddresses ++ hosts.filterMap p,
                 DNSNames := t.DNSNames ++ hosts.filter (fun h => (p h).isNone) }) := by
  have hc : isClientRequest hosts = false := by
    cases hb : isClientRequest hosts with
    | false => rfl
    | true => exact absurd ((isClientRequest_iff hosts).1 hb) h
  unfold leafTemplate
  simp [hc, foldl_addHost]

theorem leafTemplate_client (p : String → Option IP) (t : Certificate) :
    leafTemplate p t [""] =
      ("no --host parameters, making a client cert",
        { t with ExtKeyUsage := [ExtKeyUsage.ExtKeyUsageClientAuth],
                 KeyUsage := KeyUsageDigitalSignature }) := by
  simp [leafTemplate, isClientRequest]

theorem caTemplate_keyUsage_default (b : Certificate)
    (h : b.KeyUsage = KeyUsageKeyEncipherment ||| KeyUsageDigitalSignature) :
    (caTemplate b).KeyUsage = 37 := by
  show b.KeyUsage ||| KeyUsageCertSign = 37
  rw [h]
  decide

theorem key_usage_bits :
    (KeyUsageKeyEncipherment ||| KeyUsageDigitalSignature) &&& KeyUsageKeyEncipherment
      = KeyUsageKeyEncipherment ∧
    KeyUsageDigitalSignature &&& KeyUsageKeyEncipherment = 0 ∧
    KeyUsageDigitalSignature &&& KeyUsageCertSign = 0 ∧
    (KeyUsageKeyEncipherment ||| KeyUsageDigitalSignature) &&& KeyUsageCertSign = 0 := by
  decide

theorem finish_world (what : String) (r : Outcome (Option Error) × World) :
    (finish what r).2 = r.2 := by
  unfold finish
  rcases r with ⟨o, w⟩
  cases o with
  | done a => cases a <;> rfl
  | fatal m => rfl
  | panic m => rfl

theorem GenerateCA_called (env : Env) (org : String) (w : World) (certFile keyFile : String) :
    Event.callGenerateCA certFile keyFile ∈ (GenerateCA env org w certFile keyFile).2.trace := by
  unfold GenerateCA
  simp only []
  repeat' split
  all_goals simp [World.emit, writeOutputs_trace]

theorem GenerateCert_called (env : Env) (org : String) (w : World) (hosts : List String)
    (certFile keyFile caFile caKeyFile : String) :
    Event.callGenerateCert hosts certFile keyFile caFile caKeyFile ∈
      (GenerateCert env org w hosts certFile keyFile caFile caKeyFile).2.trace := by
  unfold GenerateCert
  simp only []
  repeat' split
  all_goals simp [World.emit, writeOutputs_trace]

theorem writeOutputs_ignores_write_errors (env : Env) (enc cls : Output → Option Error)
    (w : World) (certFile keyFile : String) (der : DER) (priv : PrivateKey) :
    (writeOutputs { env with encodeErr := enc, closeErr := cls } w certFile keyFile der priv).1
      = (writeOutputs env w certFile keyFile der priv).1 := by
  unfold writeOutputs Create OpenFile
  simp only []
  cases env.openErr .cert <;> cases env.openErr .key <;> rfl

theorem Stat_of_no_error (env : Env) (fs : FS) (f : String) (h : env.statErr f = none) :
    Stat env fs f =
      match fs f with
      | some _ => none
      | none => some { msg := "stat " ++ f ++ ": no such file or directory", notExist := true } := by
  unfold Stat
  rw [h]

theorem checkFilesExist_loop_ok (env : Env) (fs : FS) (files acc : List String)
    (hstat : ∀ f ∈ files, env.statErr f = none) :
    checkFilesExist.loop env fs files acc
      = .ok (acc ++ (files.filter (fun f => (fs f).isSome)).map env.quote) := by
  induction files generalizing acc with
  | nil => simp [checkFilesExist.loop]
  | cons f rest ih =>
    have hf := hstat f (List.mem_cons_self _ _)
    have ih2 := fun a => ih a (fun x hx => hstat x (List.mem_cons_of_mem _ hx))
    unfold checkFilesExist.loop
    rw [Stat_of_no_error env fs f hf]
    cases hfs : fs f with
    | none => simp [IsNotExist, ih2, hfs]
    | some file => simp [IsNotExist, ih2, hfs]

theorem checkFilesExist_loop_grows (env : Env) (fs : FS) (files acc l : List String)
    (h : checkFilesExist.loop env fs files acc = .ok l) :
    acc.length ≤ l.length ∧ ((∃ f ∈ files, (fs f).isSome) → acc.length < l.length) := by
  induction files generalizing acc with
  | nil =>
    simp [checkFilesExist.loop] at h
    subst h
    simp
  | cons f rest ih =>
    unfold checkFilesExist.loop at h
    unfold Stat at h
    cases hs : env.statErr f with
    | some m => simp [hs, IsNotExist] at h
    | none =>
      cases hfs : fs f with
      | none =>
        simp [hs, hfs, IsNotExist] at h
        have := ih acc h
        refine ⟨this.1, ?_⟩
        rintro ⟨g, hg, hgs⟩
        rcases List.mem_cons.1 hg with rfl | hg2
        · simp [hfs] at hgs
        · exact this.2 ⟨g, hg2, hgs⟩
      | some file =>
        simp [hs, hfs, IsNotExist] at h
        have := (ih _ h).1
        simp at this
        constructor
        · omega
        · intro _; omega

theorem checkFilesExist_some_of_exists (env : Env) (fs : FS) (files : List String)
    (h : ∃ f ∈ files, (fs f).isSome) : ∃ err, checkFilesExist env fs files = some err := by
  unfold checkFilesExist
  cases hl : checkFilesExist.loop env fs files [] with
  | error e => exact ⟨e, rfl⟩
  | ok l =>
    have := (checkFilesExist_loop_grows env fs files [] l hl).2 h
    simp at this
    simp [this]

theorem splitChars_ne_nil (sep : Char) (cs : List Char) : splitChars sep cs ≠ [] := by
  cases cs with
  | nil => simp [splitChars]
  | cons c rest =>
    unfold splitChars
    split
    · simp
    · split <;> simp

theorem splitChars_eq_singleton_nil (sep : Char) (cs : List Char) :
    splitChars sep cs = [[]] ↔ cs = [] := by
  constructor
  · intro h
    cases cs with
    | nil => rfl
    | cons c rest =>
      unfold splitChars at h
      split at h
      · simp [splitChars_ne_nil] at h
      · split at h <;> simp at h
  · rintro rfl
    rfl

theorem SplitComma_eq_singleton_empty (s : String) : SplitComma s = [""] ↔ s = "" := by
  unfold SplitComma
  constructor
  · intro h
    have hne := splitChars_ne_nil ',' s.data
    cases hsp : splitChars ',' s.data with
    | nil => exact absurd hsp hne
    | cons p ps =>
      rw [hsp] at h
      simp only [List.map_cons, List.cons.injEq, List.map_eq_nil_iff] at h
      have hp : p = [] := by
        have := congrArg String.data h.1
        simpa using this
      rw [hp, h.2] at hsp
      have := (splitChars_eq_singleton_nil ',' s.data).1 hsp
      exact String.ext this
  · rintro rfl
    rfl

theorem GenerateCert_logs_branch (env : Env) (org : String) (w : World) (hosts : List String)
    (certFile keyFile caFile caKeyFile : String) (base : Certificate)
    (hbase : newCertificate env org = .done base) :
    Event.log (leafTemplate env.parseIP base hosts).1 ∈
      (GenerateCert env org w hosts certFile keyFile caFile caKeyFile).2.trace := by
  unfold GenerateCert
  simp only [hbase]
  repeat' split
  all_goals simp [World.emit, writeOutputs_trace]

theorem main_leaf_mode (env : Env) (flags : Flags) (w : World)
    (hcert : flags.certFile ≠ "") (hkey : flags.keyFile ≠ "") (hca : flags.ca ≠ "")
    (hguard : overwriteGuard env flags w = none) :
    main env flags w =
      finish "Failure to generate cert: "
        (GenerateCert env flags.org w (SplitComma flags.host) flags.certFile flags.keyFile
          flags.ca flags.caKey) := by
  unfold main
  simp [hcert, hkey, hca, hguard]

theorem splitChars_free (sep : Char) (cs : List Char) : ∀ p ∈ splitChars sep cs, sep ∉ p := by
  induction cs with
  | nil => simp [splitChars]
  | cons c rest ih =>
    unfold splitChars
    split
    · intro p hp
      rcases List.mem_cons.1 hp with rfl | hp
      · simp
      · exact ih p hp
    · rename_i hc
      split
      · rename_i q qs hq
        rw [hq] at ih
        intro p hp
        rcases List.mem_cons.1 hp with rfl | hp
        · intro hmem
          rcases List.mem_cons.1 hmem with h | h
          · exact hc h.symm
          · exact ih q (List.mem_cons_self _ _) h
        · exact ih p (List.mem_cons_of_mem _ hp)
      · intro p hp
        simp at hp
        subst hp
        simp
        exact fun h => hc h.symm

theorem splitChars_intercalate (sep : Char) (cs : List Char) :
    List.intercalate [sep] (splitChars sep cs) = cs := by
  induction cs with
  | nil => simp [splitChars, List.intercalate]
  | cons c rest ih =>
    unfold splitChars
    split
    · rename_i hc
      cases hs : splitChars sep rest with
      | nil => exact absurd hs (splitChars_ne_nil sep rest)
      | cons q qs =>
        rw [hs] at ih
        simp only [List.intercalate, List.intersperse_cons_cons, List.flatten_cons] at ih ⊢
        simp [ih, hc]
    · split
      · rename_i q qs hq
        rw [hq] at ih
        cases qs with
        | nil =>
          simp [List.intercalate] at ih ⊢
          exact ih
        | cons r rs =>
          simp only [List.intercalate, List.intersperse_cons_cons, List.flatten_cons] at ih ⊢
          simpa using ih
      · rename_i hq
        exact absurd hq (splitChars_ne_nil sep rest)

/-! ## The template signed by `GenerateCA` -/

/-- C3: for every organization and every current time at which the serial number is
drawn, the template that `GenerateCA` signs has `NotAfter` minus `NotBefore` equal to
`VALIDFOR` (1080 days of 24 hours), has `NotBefore` equal to the current time and has
`IsCA = true`; it is the only template `GenerateCA` hands to `x509.CreateCertificate`,
and it is handed over whenever key generation succeeds. -/
theorem GenerateCA_template_validity (env : Env) (org : String) (serial : Nat)
    (hrand : env.randInt serialNumberLimit = .ok serial) :
    ∃ base, newCertificate env org = .done base ∧
      (caTemplate base).NotAfter.Sub (caTemplate base).NotBefore = VALIDFOR ∧
      VALIDFOR = 1080 * (24 * Hour) ∧
      (caTemplate base).NotBefore = env.now ∧
      (caTemplate base).IsCA = true ∧
      (∀ fs certFile keyFile t parent,
        Event.createCertificate t parent ∈
            (GenerateCA env org { fs := fs } certFile keyFile).2.trace →
          t = caTemplate base ∧ parent = caTemplate base) ∧
      (∀ fs certFile keyFile priv, env.generateKey RSABITS = .ok priv →
        Event.createCertificate (caTemplate base) (caTemplate base) ∈
          (GenerateCA env org { fs := fs } certFile keyFile).2.trace) := by
  have hnew := newCertificate_of_rand env org serial hrand
  refine ⟨_, hnew, ?_, by decide, rfl, rfl, ?_, ?_⟩
  · have hr := validity_in_range
    have hc := validity_constant.1
    simp only [caTemplate, Time.Sub, Time.Add, hc]
    have hd : env.now.nsec + VALIDFOR - env.now.nsec = VALIDFOR := by omega
    rw [hd]
    have h1 : ¬ VALIDFOR > maxDuration := not_lt.mpr hr.2
    have h2 : ¬ VALIDFOR < minDuration := not_lt.mpr hr.1
    simp [h1, h2]
  · intro fs certFile keyFile t parent h
    exact GenerateCA_signed env org fs certFile keyFile _ t parent hnew h
  · intro fs certFile keyFile priv hk
    exact GenerateCA_signs env org fs certFile keyFile _ priv hnew hk

/-- Instance of `GenerateCA_template_validity` in `sampleEnv`. -/
theorem GenerateCA_template_validity_witness :
    sampleEnv.randInt serialNumberLimit = .ok 42 ∧
    ∃ base, newCertificate sampleEnv "Boot2Docker" = .done base ∧
      (caTemplate base).NotAfter.Sub (caTemplate base).NotBefore = VALIDFOR ∧
      VALIDFOR = 1080 * (24 * Hour) ∧
      (caTemplate base).NotBefore = sampleEnv.now ∧
      (caTemplate base).IsCA = true ∧
      (∀ fs certFile keyFile t parent,
        Event.createCertificate t parent ∈
            (GenerateCA sampleEnv "Boot2Docker" { fs := fs } certFile keyFile).2.trace →
          t = caTemplate base ∧ parent = caTemplate base) ∧
      (∀ fs certFile keyFile priv, sampleEnv.generateKey RSABITS = .ok priv →
        Event.createCertificate (caTemplate base) (caTemplate base) ∈
          (GenerateCA sampleEnv "Boot2Docker" { fs := fs } certFile keyFile).2.trace) :=
  ⟨rfl, GenerateCA_template_validity sampleEnv "Boot2Docker" 42 rfl⟩

/-- C7: the template that `GenerateCA` signs has key usage exactly key encipherment,
digital signature and certificate signing (the default of `newCertificate` with the
certificate-signing bit ORed in, no bit removed) and `BasicConstraintsValid = true`. -/
theorem GenerateCA_template_key_usage (env : Env) (org : String) (serial : Nat)
    (hrand : env.randInt serialNumberLimit = .ok serial) :
    ∃ base, newCertificate env org = .done base ∧
      base.KeyUsage = KeyUsageKeyEncipherment ||| KeyUsageDigitalSignature ∧
      (caTemplate base).KeyUsage = base.KeyUsage ||| KeyUsageCertSign ∧
      (caTemplate base).KeyUsage =
        KeyUsageKeyEncipherment ||| KeyUsageDigitalSignature ||| KeyUsageCertSign ∧
      (∀ i, (caTemplate base).KeyUsage.testBit i = true ↔ (i = 2 ∨ i = 0 ∨ i = 5)) ∧
      (caTemplate base).BasicConstraintsValid = true ∧
      (∀ fs certFile keyFile t parent,
        Event.createCertificate t parent ∈
            (GenerateCA env org { fs := fs } certFile keyFile).2.trace →
          t = caTemplate base) := by
  have hnew := newCertificate_of_rand env org serial hrand
  refine ⟨_, hnew, rfl, rfl, rfl, ?_, rfl, ?_⟩
  · intro i
    rw [caTemplate_keyUsage_default _ rfl]
    by_cases hi : i < 6
    · interval_cases i <;> decide
    · have hlt : 37 < 2 ^ i :=
        lt_of_lt_of_le (by norm_num) (Nat.pow_le_pow_right (by norm_num) (not_lt.mp hi))
      rw [Nat.testBit_lt_two_pow hlt]
      constructor
      · intro h; cases h
      · intro h; omega
  · intro fs certFile keyFile t parent h
    exact (GenerateCA_signed env org fs certFile keyFile _ t parent hnew h).1

/-- Instance of `GenerateCA_template_key_usage` in `sampleEnv`. -/
theorem GenerateCA_template_key_usage_witness :
    sampleEnv.randInt serialNumberLimit = .ok 42 ∧
    ∃ base, newCertificate sampleEnv "Boot2Docker" = .done base ∧
      base.KeyUsage = KeyUsageKeyEncipherment ||| KeyUsageDigitalSignature ∧
      (caTemplate base).KeyUsage = base.KeyUsage ||| KeyUsageCertSign ∧
      (caTemplate base).KeyUsage =
        KeyUsageKeyEncipherment ||| KeyUsageDigitalSignature ||| KeyUsageCertSign ∧
      (∀ i, (caTemplate base).KeyUsage.testBit i = true ↔ (i = 2 ∨ i = 0 ∨ i = 5)) ∧
      (caTemplate base).BasicConstraintsValid = true ∧
      (∀ fs certFile keyFile t parent,
        Event.createCertificate t parent ∈
            (GenerateCA sampleEnv "Boot2Docker" { fs := fs } certFile keyFile).2.trace →
          t = caTemplate base) :=
  ⟨rfl, GenerateCA_template_key_usage sampleEnv "Boot2Docker" 42 rfl⟩

/-! ## The template signed by `GenerateCert` -/

/-- C1: for every host list other than the single empty string, the template built by
`GenerateCert` has as IP-address list the parsed values of the hosts that `net.ParseIP`
accepts, in input order, and as DNS-name list the hosts that `net.ParseIP` rejects, in
input order, duplicates kept; an all-IP list gives an empty DNS list, an all-non-IP list
gives an empty IP list, and `["10.0.0.1", "example.com"]` gives `[10.0.0.1]` and
`[example.com]`.  This template is the only one `GenerateCert` signs. -/
theorem GenerateCert_server_san_lists (env : Env) (org : String) (serial : Nat)
    (hosts : List String) (hrand : env.randInt serialNumberLimit = .ok serial)
    (hserver : hosts ≠ [""]) :
    ∃ base, newCertificate env org = .done base ∧
      (leafTemplate env.parseIP base hosts).2.IPAddresses = hosts.filterMap env.parseIP ∧
      (leafTemplate env.parseIP base hosts).2.DNSNames
        = hosts.filter (fun h => (env.parseIP h).isNone) ∧
      ((∀ h ∈ hosts, env.parseIP h ≠ none) →
        (leafTemplate env.parseIP base hosts).2.IPAddresses.map some = hosts.map env.parseIP ∧
        (leafTemplate env.parseIP base hosts).2.DNSNames = []) ∧
      ((∀ h ∈ hosts, env.parseIP h = none) →
        (leafTemplate env.parseIP base hosts).2.DNSNames = hosts ∧
        (leafTemplate env.parseIP base hosts).2.IPAddresses = []) ∧
      (∀ ip, hosts = ["10.0.0.1", "example.com"] → env.parseIP "10.0.0.1" = some ip →
        env.parseIP "example.com" = none →
        (leafTemplate env.parseIP base hosts).2.IPAddresses = [ip] ∧
        (leafTemplate env.parseIP base hosts).2.DNSNames = ["example.com"]) ∧
      (∀ fs certFile keyFile caFile caKeyFile t parent,
        Event.createCertificate t parent ∈
            (GenerateCert env org { fs := fs } hosts certFile keyFile caFile caKeyFile).2.trace →
          t = (leafTemplate env.parseIP base hosts).2) := by
  have hnew := newCertificate_of_rand env org serial hrand
  refine ⟨_, hnew, ?_, ?_, ?_, ?_, ?_, ?_⟩
  · rw [leafTemplate_server _ _ _ hserver]; simp
  · rw [leafTemplate_server _ _ _ hserver]; simp
  · intro hall
    rw [leafTemplate_server _ _ _ hserver]
    constructor
    · simp only [List.nil_append]
      clear hserver
      induction hosts with
      | nil => simp
      | cons h rest ih =>
        have hh := hall h (List.mem_cons_self _ _)
        have ih2 := ih (fun x hx => hall x (List.mem_cons_of_mem _ hx))
        cases hp : env.parseIP h with
        | none => exact absurd hp hh
        | some ip => simp [List.filterMap_cons, hp, ih2]
    · simp only [List.nil_append, List.filter_eq_nil_iff]
      intro h hh
      have := hall h hh
      cases hp : env.parseIP h with
      | none => exact absurd hp this
      | some ip => simp
  · intro hall
    rw [leafTemplate_server _ _ _ hserver]
    constructor
    · simp only [List.nil_append, List.filter_eq_self]
      intro h hh
      simp [hall h hh]
    · simp only [List.nil_append, List.filterMap_eq_nil_iff]
      exact hall
  · intro ip hh h1 h2
    rw [leafTemplate_server _ _ _ hserver]
    subst hh
    simp [List.filterMap_cons, h1, h2]
  · intro fs certFile keyFile caFile caKeyFile t parent h
    exact GenerateCert_signed env org fs hosts certFile keyFile caFile caKeyFile _ t parent hnew h

/-- Instance of `GenerateCert_server_san_lists` at the host list
`["10.0.0.1", "example.com"]`. -/
theorem GenerateCert_server_san_lists_witness :
    sampleEnv.randInt serialNumberLimit = .ok 42 ∧
    ["10.0.0.1", "example.com"] ≠ [""] ∧
    sampleEnv.parseIP "10.0.0.1" = some [0, 0, 0, 0, 0, 0, 0, 0, 0, 0, 255, 255, 10, 0, 0, 1] ∧
    sampleEnv.parseIP "example.com" = none ∧
    (leafTemplate sampleEnv.parseIP sampleBase ["10.0.0.1", "example.com"]).2.IPAddresses
      = [[0, 0, 0, 0, 0, 0, 0, 0, 0, 0, 255, 255, 10, 0, 0, 1]] ∧
    (leafTemplate sampleEnv.parseIP sampleBase ["10.0.0.1", "example.com"]).2.DNSNames
      = ["example.com"] := by
  obtain ⟨base, hb, -, -, -, -, hex, -⟩ := GenerateCert_server_san_lists sampleEnv "Boot2Docker"
    42 ["10.0.0.1", "example.com"] rfl (by decide)
  have hbase : base = sampleBase := by
    have h2 : newCertificate sampleEnv "Boot2Docker" = .done sampleBase := by decide
    rw [h2] at hb
    exact (Outcome.done.inj hb).symm
  subst hbase
  have h := hex [0, 0, 0, 0, 0, 0, 0, 0, 0, 0, 255, 255, 10, 0, 0, 1] rfl (by decide) (by decide)
  exact ⟨rfl, by decide, by decide, by decide, h.1, h.2⟩

/-- C2 fails for the host list with zero entries: `GenerateCert` then signs the default
template, whose extended key usage is empty and whose key usage still has the
key-encipherment bit. -/
theorem GenerateCert_no_hosts_not_client :
    newCertificate sampleEnv "Boot2Docker" = .done sampleBase ∧
    Event.createCertificate sampleBase sampleParent ∈
      (GenerateCert sampleEnv "Boot2Docker" { fs := emptyFS } [] "cert.pem" "key.pem"
        "ca.pem" "ca-key.pem").2.trace ∧
    (leafTemplate sampleEnv.parseIP sampleBase []).2 = sampleBase ∧
    sampleBase.ExtKeyUsage = [] ∧
    sampleBase.KeyUsage = KeyUsageKeyEncipherment ||| KeyUsageDigitalSignature ∧
    ¬ ((leafTemplate sampleEnv.parseIP sampleBase []).2.ExtKeyUsage
          = [ExtKeyUsage.ExtKeyUsageClientAuth] ∧
       (leafTemplate sampleEnv.parseIP sampleBase []).2.KeyUsage = KeyUsageDigitalSignature) := by
  decide

/-- C2, amended: for every call of `GenerateCert` whose host list is the single empty
string, the template is a client certificate: extended key usage exactly
client-authentication and key usage exactly digital-signature, the key-encipherment
bit of the default being cleared.  A host list with zero entries leaves the default
template unchanged. -/
theorem GenerateCert_client_template (env : Env) (org : String) (serial : Nat)
    (hosts : List String) (hrand : env.randInt serialNumberLimit = .ok serial)
    (hclient : hosts = [""]) :
    ∃ base, newCertificate env org = .done base ∧
      (leafTemplate env.parseIP base hosts).1 = "no --host parameters, making a client cert" ∧
      (leafTemplate env.parseIP base hosts).2.ExtKeyUsage
        = [ExtKeyUsage.ExtKeyUsageClientAuth] ∧
      (leafTemplate env.parseIP base hosts).2.KeyUsage = KeyUsageDigitalSignature ∧
      base.KeyUsage &&& KeyUsageKeyEncipherment = KeyUsageKeyEncipherment ∧
      (leafTemplate env.parseIP base hosts).2.KeyUsage &&& KeyUsageKeyEncipherment = 0 ∧
      (leafTemplate env.parseIP base []).2 = base ∧
      (∀ fs certFile keyFile caFile caKeyFile t parent,
        Event.createCertificate t parent ∈
            (GenerateCert env org { fs := fs } hosts certFile keyFile caFile caKeyFile).2.trace →
          t = (leafTemplate env.parseIP base hosts).2) := by
  have hnew := newCertificate_of_rand env org serial hrand
  subst hclient
  refine ⟨_, hnew, ?_, ?_, ?_, key_usage_bits.1, ?_, ?_, ?_⟩
  · rw [leafTemplate_client]
  · rw [leafTemplate_client]
  · rw [leafTemplate_client]
  · rw [leafTemplate_client]; exact key_usage_bits.2.1
  · rw [leafTemplate_server _ _ _ (by decide)]; simp
  · intro fs certFile keyFile caFile caKeyFile t parent h
    exact GenerateCert_signed env org fs _ certFile keyFile caFile caKeyFile _ t parent hnew h

/-- Instance of `GenerateCert_client_template` in `sampleEnv`. -/
theorem GenerateCert_client_template_witness :
    sampleEnv.randInt serialNumberLimit = .ok 42 ∧ [""] = [""] ∧
    ∃ base, newCertificate sampleEnv "Boot2Docker" = .done base ∧
      (leafTemplate sampleEnv.parseIP base [""]).1
        = "no --host parameters, making a client cert" ∧
      (leafTemplate sampleEnv.parseIP base [""]).2.ExtKeyUsage
        = [ExtKeyUsage.ExtKeyUsageClientAuth] ∧
      (leafTemplate sampleEnv.parseIP base [""]).2.KeyUsage = KeyUsageDigitalSignature ∧
      base.KeyUsage &&& KeyUsageKeyEncipherment = KeyUsageKeyEncipherment ∧
      (leafTemplate sampleEnv.parseIP base [""]).2.KeyUsage &&& KeyUsageKeyEncipherment = 0 ∧
      (leafTemplate sampleEnv.parseIP base []).2 = base ∧
      (∀ fs certFile keyFile caFile caKeyFile t parent,
        Event.createCertificate t parent ∈
            (GenerateCert sampleEnv "Boot2Docker" { fs := fs } [""] certFile keyFile caFile
              caKeyFile).2.trace →
          t = (leafTemplate sampleEnv.parseIP base [""]).2) :=
  ⟨rfl, rfl, GenerateCert_client_template sampleEnv "Boot2Docker" 42 [""] rfl rfl⟩

/-- C10: no template built by `GenerateCert` can act as a CA: for every host list
`IsCA = false` and the certificate-signing bit of the key usage is clear; on the server
branch the key usage is exactly the default (key encipherment, digital signature) and
the extended key usage is empty; on the client branch the IP-address and DNS-name lists
are empty. -/
theorem GenerateCert_template_not_ca (env : Env) (org : String) (serial : Nat)
    (hosts : List String) (hrand : env.randInt serialNumberLimit = .ok serial) :
    ∃ base, newCertificate env org = .done base ∧
      (leafTemplate env.parseIP base hosts).2.IsCA = false ∧
      (leafTemplate env.parseIP base hosts).2.KeyUsage &&& KeyUsageCertSign = 0 ∧
      (isClientRequest hosts = false →
        (leafTemplate env.parseIP base hosts).1 = "Generating a server cert" ∧
        (leafTemplate env.parseIP base hosts).2.KeyUsage
          = KeyUsageKeyEncipherment ||| KeyUsageDigitalSignature ∧
        (leafTemplate env.parseIP base hosts).2.ExtKeyUsage = []) ∧
      (isClientRequest hosts = true →
        (leafTemplate env.parseIP base hosts).1 = "no --host parameters, making a client cert" ∧
        (leafTemplate env.parseIP base hosts).2.IPAddresses = [] ∧
        (leafTemplate env.parseIP base hosts).2.DNSNames = []) ∧
      (∀ fs certFile keyFile caFile caKeyFile t parent,
        Event.createCertificate t parent ∈
            (GenerateCert env org { fs := fs } hosts certFile keyFile caFile caKeyFile).2.trace →
          t = (leafTemplate env.parseIP base hosts).2) := by
  have hnew := newCertificate_of_rand env org serial hrand
  refine ⟨_, hnew, ?_, ?_, ?_, ?_, ?_⟩
  · by_cases hc : hosts = [""]
    · subst hc; rw [leafTemplate_client]
    · rw [leafTemplate_server _ _ _ hc]
  · by_cases hc : hosts = [""]
    · subst hc; rw [leafTemplate_client]; exact key_usage_bits.2.2.1
    · rw [leafTemplate_server _ _ _ hc]; exact key_usage_bits.2.2.2
  · intro hs
    have hc : hosts ≠ [""] := by
      intro h
      rw [(isClientRequest_iff hosts).2 h] at hs
      cases hs
    rw [leafTemplate_server _ _ _ hc]
    exact ⟨rfl, rfl, rfl⟩
  · intro hs
    have hc := (isClientRequest_iff hosts).1 hs
    subst hc
    rw [leafTemplate_client]
    exact ⟨rfl, rfl, rfl⟩
  · intro fs certFile keyFile caFile caKeyFile t parent h
    exact GenerateCert_signed env org fs hosts certFile keyFile caFile caKeyFile _ t parent hnew h

/-- Instance of `GenerateCert_template_not_ca` at the host list `["10.0.0.1"]`. -/
theorem GenerateCert_template_not_ca_witness :
    sampleEnv.randInt serialNumberLimit = .ok 42 ∧
    ∃ base, newCertificate sampleEnv "Boot2Docker" = .done base ∧
      (leafTemplate sampleEnv.parseIP base ["10.0.0.1"]).2.IsCA = false ∧
      (leafTemplate sampleEnv.parseIP base ["10.0.0.1"]).2.KeyUsage &&& KeyUsageCertSign = 0 ∧
      (isClientRequest ["10.0.0.1"] = false →
        (leafTemplate sampleEnv.parseIP base ["10.0.0.1"]).1 = "Generating a server cert" ∧
        (leafTemplate sampleEnv.parseIP base ["10.0.0.1"]).2.KeyUsage
          = KeyUsageKeyEncipherment ||| KeyUsageDigitalSignature ∧
        (leafTemplate sampleEnv.parseIP base ["10.0.0.1"]).2.ExtKeyUsage = []) ∧
      (isClientRequest ["10.0.0.1"] = true →
        (leafTemplate sampleEnv.parseIP base ["10.0.0.1"]).1
          = "no --host parameters, making a client cert" ∧
        (leafTemplate sampleEnv.parseIP base ["10.0.0.1"]).2.IPAddresses = [] ∧
        (leafTemplate sampleEnv.parseIP base ["10.0.0.1"]).2.DNSNames = []) ∧
      (∀ fs certFile keyFile caFile caKeyFile t parent,
        Event.createCertificate t parent ∈
            (GenerateCert sampleEnv "Boot2Docker" { fs := fs } ["10.0.0.1"] certFile keyFile
              caFile caKeyFile).2.trace →
          t = (leafTemplate sampleEnv.parseIP base ["10.0.0.1"]).2) :=
  ⟨rfl, GenerateCert_template_not_ca sampleEnv "Boot2Docker" 42 ["10.0.0.1"] rfl⟩

/-! ## Mode selection and the overwrite check in `main` -/

/-- C4, the code at the failing input: with `--ca-key` alone `main` stops with the usage
error, but with `--ca` alone it calls `GenerateCert` with an empty CA-key path instead
of stopping with the usage error. -/
theorem main_ca_without_ca_key_runs_issuer (env : Env) (w : World) :
    main env { certFile := "cert.pem", keyFile := "key.pem", caKey := "ca-key.pem" } w
      = (.fatal "Must provide both --ca and --ca-key", w) ∧
    Event.callGenerateCert [""] "cert.pem" "key.pem" "ca.pem" "" ∈
      (main env { certFile := "cert.pem", keyFile := "key.pem", ca := "ca.pem",
                  overwrite := true } w).2.trace ∧
    Event.callGenerateCert [""] "cert.pem" "key.pem" "ca.pem" "" ∈
      (main sampleEnv { certFile := "cert.pem", keyFile := "key.pem", ca := "ca.pem" }
        { fs := emptyFS }).2.trace := by
  refine ⟨?_, ?_, by decide⟩
  · simp [main]
  · have hs : SplitComma "" = [""] := by decide
    simp only [main, overwriteGuard]
    simp [hs]
    rw [finish_world]
    exact GenerateCert_called env "Boot2Docker" w [""] "cert.pem" "key.pem" "ca.pem" ""

/-- C5 fails when `os.Stat` reports another error for one of the output files:
`cert.pem` exists, yet the error returned is the error of `os.Stat` on the key path,
which does not name `cert.pem`.  It also fails when a usage error comes first: with
`--ca-key` alone and `cert.pem` existing, the error is the usage error. -/
theorem checkFilesExist_other_stat_error :
    (certOnlyFS "cert.pem").isSome = true ∧
    checkFilesExist deniedStatEnv certOnlyFS ["cert.pem", "secret/key.pem"]
      = some { msg := "stat secret/key.pem: permission denied" } ∧
    checkFilesExist deniedStatEnv certOnlyFS ["cert.pem", "secret/key.pem"]
      ≠ some { msg := "the following files already exist: \"cert.pem\". "
                        ++ "To overwrite files, add `--overwrite`." } ∧
    (main deniedStatEnv { certFile := "cert.pem", keyFile := "secret/key.pem" }
        { fs := certOnlyFS }).1
      = .fatal "Preventing overwrite: stat secret/key.pem: permission denied" ∧
    (main sampleEnv { certFile := "cert.pem", keyFile := "key.pem", caKey := "ca-key.pem" }
        { fs := certOnlyFS }).1
      = .fatal "Must provide both --ca and --ca-key" := by
  decide

/-- C5, amended: when `os.Stat` reports no error other than absence for the files, then
`checkFilesExist` returns no error if none of them exists, and otherwise returns the
existing-files error whose message names exactly the files that exist, each quoted, in
argument order.  Whatever `os.Stat` reports, if at least one file exists
`checkFilesExist` returns an error; and when overwrite is not requested and at least one
output file exists, `main` stops before either issuer is called (the files and the trace
of calls are unchanged), with the error of `checkFilesExist` once the flag checks that
come first have passed. -/
theorem checkFilesExist_existing_files (env : Env) (fs : FS) (files : List String) :
    ((∀ f ∈ files, env.statErr f = none) → (∀ f ∈ files, fs f = none) →
      checkFilesExist env fs files = none) ∧
    ((∀ f ∈ files, env.statErr f = none) → (∃ f ∈ files, (fs f).isSome) →
      checkFilesExist env fs files =
        some { msg := "the following files already exist: "
                        ++ Join ((files.filter (fun f => (fs f).isSome)).map env.quote) " "
                        ++ ". To overwrite files, add `--overwrite`." }) ∧
    ((∃ f ∈ files, (fs f).isSome) → ∃ err, checkFilesExist env fs files = some err) ∧
    (∀ (flags : Flags) (trace : List Event), files = [flags.certFile, flags.keyFile] →
      flags.overwrite = false → (∃ f ∈ files, (fs f).isSome) →
      (∃ msg, main env flags { fs := fs, trace := trace }
          = (.fatal msg, { fs := fs, trace := trace })) ∧
      (flags.certFile ≠ "" → flags.keyFile ≠ "" → (flags.ca = "" → flags.caKey = "") →
        ∃ err, checkFilesExist env fs files = some err ∧
          main env flags { fs := fs, trace := trace }
            = (.fatal ("Preventing overwrite: " ++ err.msg), { fs := fs, trace := trace }))) := by
  refine ⟨?_, ?_, checkFilesExist_some_of_exists env fs files, ?_⟩
  · intro hstat hnone
    unfold checkFilesExist
    rw [checkFilesExist_loop_ok env fs files [] hstat]
    have : files.filter (fun f => (fs f).isSome) = [] := by
      rw [List.filter_eq_nil_iff]
      intro f hf
      simp [hnone f hf]
    simp [this]
  · intro hstat hex
    unfold checkFilesExist
    rw [checkFilesExist_loop_ok env fs files [] hstat]
    have hne : files.filter (fun f => (fs f).isSome) ≠ [] := by
      obtain ⟨f, hf, hfs⟩ := hex
      intro h
      rw [List.filter_eq_nil_iff] at h
      exact h f hf hfs
    have hpos : 0 < (files.filter (fun f => (fs f).isSome)).length :=
      List.length_pos.2 hne
    simp [hpos]
  · intro flags trace hfiles hover hex
    obtain ⟨err, herr⟩ := checkFilesExist_some_of_exists env fs files hex
    subst hfiles
    have hguard : overwriteGuard env flags { fs := fs, trace := trace } = some err := by
      simp [overwriteGuard, hover, herr]
    constructor
    · unfold main
      by_cases hcert : flags.certFile = ""
      · exact ⟨"Missing required parameter: --cert", by simp [hcert]⟩
      · by_cases hkey : flags.keyFile = ""
        · exact ⟨"Missing required parameter: --key", by simp [hcert, hkey]⟩
        · by_cases hca : flags.ca = ""
          · by_cases hck : flags.caKey = ""
            · exact ⟨"Preventing overwrite: " ++ err.msg, by simp [hcert, hkey, hca, hck, hguard]⟩
            · exact ⟨"Must provide both --ca and --ca-key", by simp [hcert, hkey, hca, hck]⟩
          · exact ⟨"Preventing overwrite: " ++ err.msg, by simp [hcert, hkey, hca, hguard]⟩
    · intro hcert hkey hpair
      refine ⟨err, herr, ?_⟩
      unfold main
      by_cases hca : flags.ca = ""
      · simp [hcert, hkey, hca, hpair hca, hguard]
      · simp [hcert, hkey, hca, hguard]

/-- Instance of `checkFilesExist_existing_files`: only `cert.pem` exists, and only it is named. -/
theorem checkFilesExist_existing_files_witness :
    (∀ f ∈ ["cert.pem", "key.pem"], sampleEnv.statErr f = none) ∧
    (∃ f ∈ ["cert.pem", "key.pem"], (certOnlyFS f).isSome) ∧
    checkFilesExist sampleEnv certOnlyFS ["cert.pem", "key.pem"] =
      some { msg := "the following files already exist: "
        ++ Join ((["cert.pem", "key.pem"].filter (fun f => (certOnlyFS f).isSome)).map
            sampleEnv.quote) " "
        ++ ". To overwrite files, add `--overwrite`." } ∧
    (["cert.pem", "key.pem"].filter (fun f => (certOnlyFS f).isSome)).map sampleEnv.quote
      = ["\"cert.pem\""] ∧
    (main sampleEnv { certFile := "cert.pem", keyFile := "key.pem" } { fs := certOnlyFS }).1
      = .fatal ("Preventing overwrite: the following files already exist: \"cert.pem\". "
                  ++ "To overwrite files, add `--overwrite`.") :=
  ⟨by decide, by decide,
   (checkFilesExist_existing_files sampleEnv certOnlyFS ["cert.pem", "key.pem"]).2.1
     (by decide) (by decide),
   by decide, by decide⟩

/-! ## Writing the output files -/

/-- C6, the code at the failing input: when every `pem.Encode` and every `Close` fails,
`GenerateCA` and `GenerateCert` still return nil, `main` ends normally, and neither
output file holds a PEM block; in general the value returned by the file-writing part does not
depend on the results of `pem.Encode` and `Close`. -/
theorem write_errors_are_dropped :
    (GenerateCA diskFullEnv "Boot2Docker" { fs := emptyFS } "ca.pem" "ca-key.pem").1
      = .done none ∧
    (GenerateCA diskFullEnv "Boot2Docker" { fs := emptyFS } "ca.pem" "ca-key.pem").2.fs "ca.pem"
      = some { mode := 0o644, data := [] } ∧
    (GenerateCA diskFullEnv "Boot2Docker" { fs := emptyFS } "ca.pem" "ca-key.pem").2.fs
        "ca-key.pem"
      = some { mode := 0o600, data := [] } ∧
    (main diskFullEnv { certFile := "ca.pem", keyFile := "ca-key.pem" } { fs := emptyFS }).1
      = .done () ∧
    (GenerateCert diskFullEnv "Boot2Docker" { fs := emptyFS } ["10.0.0.1"] "cert.pem" "key.pem"
        "ca.pem" "ca-key.pem").1
      = .done none ∧
    (GenerateCert diskFullEnv "Boot2Docker" { fs := emptyFS } ["10.0.0.1"] "cert.pem" "key.pem"
        "ca.pem" "ca-key.pem").2.fs "cert.pem"
      = some { mode := 0o644, data := [] } ∧
    (∀ (env : Env) (enc cls : Output → Option Error) (w : World) (certFile keyFile : String)
        (der : DER) (priv : PrivateKey),
      (writeOutputs { env with encodeErr := enc, closeErr := cls } w certFile keyFile der priv).1
        = (writeOutputs env w certFile keyFile der priv).1) := by
  refine ⟨by decide, by decide, by decide, by decide, by decide, by decide, ?_⟩
  exact writeOutputs_ignores_write_errors

/-- C8, the code at the failing input: a key file that already exists with mode 0644 is
truncated and rewritten by a successful `GenerateCA` or `GenerateCert`, and keeps mode
0644; a key file that did not exist is created with mode 0600. -/
theorem overwritten_key_keeps_mode :
    (looseKeyFS "key.pem").map File.mode = some 0o644 ∧
    (GenerateCA sampleEnv "Boot2Docker" { fs := looseKeyFS } "cert.pem" "key.pem").1
      = .done none ∧
    (GenerateCA sampleEnv "Boot2Docker" { fs := looseKeyFS } "cert.pem" "key.pem").2.fs "key.pem"
      = some { mode := 0o644, data := [⟨"RSA PRIVATE KEY", [48, 129]⟩] } ∧
    (GenerateCert sampleEnv "Boot2Docker" { fs := looseKeyFS } ["10.0.0.1"] "cert.pem" "key.pem"
        "ca.pem" "ca-key.pem").1
      = .done none ∧
    (GenerateCert sampleEnv "Boot2Docker" { fs := looseKeyFS } ["10.0.0.1"] "cert.pem" "key.pem"
        "ca.pem" "ca-key.pem").2.fs "key.pem"
      = some { mode := 0o644, data := [⟨"RSA PRIVATE KEY", [48, 129]⟩] } ∧
    (main sampleEnv { certFile := "cert.pem", keyFile := "key.pem", overwrite := true }
        { fs := looseKeyFS }).2.fs "key.pem"
      = some { mode := 0o644, data := [⟨"RSA PRIVATE KEY", [48, 129]⟩] } ∧
    (GenerateCA sampleEnv "Boot2Docker" { fs := emptyFS } "cert.pem" "key.pem").2.fs "key.pem"
      = some { mode := 0o600, data := [⟨"RSA PRIVATE KEY", [48, 129]⟩] } := by
  decide

/-! ## The `--host` flag -/

/-- C9: in leaf-signing mode `main` passes `strings.Split(host, ",")` to `GenerateCert`;
the client-certificate branch is taken exactly when the flag value is the empty string;
every non-empty value, `","` and values with a trailing comma included, takes the server
branch, and there every empty piece of the split is appended to the DNS-name list as an
empty name (`net.ParseIP` rejecting the empty string). -/
theorem main_host_flag_branch (env : Env) (flags : Flags) (w : World) (serial : Nat)
    (hcert : flags.certFile ≠ "") (hkey : flags.keyFile ≠ "") (hca : flags.ca ≠ "")
    (hguard : overwriteGuard env flags w = none)
    (hrand : env.randInt serialNumberLimit = .ok serial) :
    main env flags w =
      finish "Failure to generate cert: "
        (GenerateCert env flags.org w (SplitComma flags.host) flags.certFile flags.keyFile
          flags.ca flags.caKey) ∧
    Event.callGenerateCert (SplitComma flags.host) flags.certFile flags.keyFile flags.ca
        flags.caKey ∈ (main env flags w).2.trace ∧
    (isClientRequest (SplitComma flags.host) = true ↔ flags.host = "") ∧
    SplitComma "," = ["", ""] ∧ SplitComma "example.com," = ["example.com", ""] ∧
    ∃ base, newCertificate env flags.org = .done base ∧
      Event.log (leafTemplate env.parseIP base (SplitComma flags.host)).1 ∈
        (main env flags w).2.trace ∧
      ((leafTemplate env.parseIP base (SplitComma flags.host)).1
          = "no --host parameters, making a client cert" ↔ flags.host = "") ∧
      (flags.host ≠ "" →
        (leafTemplate env.parseIP base (SplitComma flags.host)).1 = "Generating a server cert" ∧
        (leafTemplate env.parseIP base (SplitComma flags.host)).2.DNSNames
          = (SplitComma flags.host).filter (fun h => (env.parseIP h).isNone) ∧
        (env.parseIP "" = none →
          (leafTemplate env.parseIP base (SplitComma flags.host)).2.DNSNames.count ""
            = (SplitComma flags.host).count "")) := by
  have hnew := newCertificate_of_rand env flags.org serial hrand
  have hmain := main_leaf_mode env flags w hcert hkey hca hguard
  have hiff : isClientRequest (SplitComma flags.host) = true ↔ flags.host = "" :=
    (isClientRequest_iff _).trans (SplitComma_eq_singleton_empty _)
  refine ⟨hmain, ?_, hiff, by decide, by decide, _, hnew, ?_, ?_, ?_⟩
  · rw [hmain, finish_world]
    exact GenerateCert_called _ _ _ _ _ _ _ _
  · rw [hmain, finish_world]
    exact GenerateCert_logs_branch _ _ _ _ _ _ _ _ _ hnew
  · constructor
    · intro h
      by_contra hne
      have hs : SplitComma flags.host ≠ [""] :=
        fun hh => hne ((SplitComma_eq_singleton_empty _).1 hh)
      rw [leafTemplate_server _ _ _ hs] at h
      simp at h
    · intro h
      rw [(SplitComma_eq_singleton_empty _).2 h, leafTemplate_client]
  · intro hne
    have hs : SplitComma flags.host ≠ [""] :=
      fun hh => hne ((SplitComma_eq_singleton_empty _).1 hh)
    rw [leafTemplate_server _ _ _ hs]
    refine ⟨rfl, by simp, ?_⟩
    intro hp
    simp only [List.nil_append]
    exact List.count_filter (by simp [hp])

/-- Instance of `main_host_flag_branch` at `--host example.com,`: the split is
`["example.com", ""]`, the server branch is taken and the empty piece becomes an empty
DNS name. -/
theorem main_host_flag_branch_witness :
    ("cert.pem" : String) ≠ "" ∧ ("key.pem" : String) ≠ "" ∧ ("ca.pem" : String) ≠ "" ∧
    overwriteGuard sampleEnv
      { host := "example.com,", certFile := "cert.pem", keyFile := "key.pem", ca := "ca.pem",
        caKey := "ca-key.pem" } { fs := emptyFS } = none ∧
    sampleEnv.randInt serialNumberLimit = .ok 42 ∧
    ("example.com," : String) ≠ "" ∧ sampleEnv.parseIP "" = none ∧
    Event.callGenerateCert ["example.com", ""] "cert.pem" "key.pem" "ca.pem" "ca-key.pem" ∈
      (main sampleEnv
        { host := "example.com,", certFile := "cert.pem", keyFile := "key.pem", ca := "ca.pem",
          caKey := "ca-key.pem" } { fs := emptyFS }).2.trace ∧
    (leafTemplate sampleEnv.parseIP sampleBase (SplitComma "example.com,")).1
      = "Generating a server cert" ∧
    (leafTemplate sampleEnv.parseIP sampleBase (SplitComma "example.com,")).2.DNSNames.count ""
      = (SplitComma "example.com,").count "" ∧
    (SplitComma "example.com,").count "" = 1 := by
  obtain ⟨-, hcall, -, -, -, base, hb, -, -, hserver⟩ := main_host_flag_branch sampleEnv
    { host := "example.com,", certFile := "cert.pem", keyFile := "key.pem", ca := "ca.pem",
      caKey := "ca-key.pem" } { fs := emptyFS } 42 (by decide) (by decide) (by decide)
    (by decide) rfl
  have hbase : base = sampleBase := by
    have h2 : newCertificate sampleEnv "Boot2Docker" = .done sampleBase := by decide
    rw [h2] at hb
    exact (Outcome.done.inj hb).symm
  subst hbase
  have h := hserver (by decide)
  exact ⟨by decide, by decide, by decide, by decide, rfl, by decide, by decide, hcall, h.1,
    h.2.2 (by decide), by decide⟩

end Gencert
